import Mathlib

/-!
# STM32F4 independent watchdog driver (`targets/TARGET_STM/TARGET_STM32F4/watchdog.c`)

A shallow embedding of the driver: the prescaler selector
`calculate_prescaler_value`, the controller `hal_watchdog_init`, and the
query / kick / stop entry points, followed by the properties of the
specification that concern them.

Conventions of the embedding.

* C unsigned integers are natural numbers; every arithmetic result that C
  computes in 32 bits is reduced `% 2 ^ 32`, every 64-bit one `% 2 ^ 64`.
* The memory-mapped register block `IWDG` is an explicit value threaded
  through the operations, together with the sequence of volatile stores
  issued so far.
-/

namespace Watchdog

/-! ## Platform constants -/

/-- Source: `#define LPO_CLOCK_FREQUENCY 40000`. -/
def LPO_CLOCK_FREQUENCY : Nat := 40000

/-- Source: `#define MAX_PRESCALER 256`. -/
def MAX_PRESCALER : Nat := 256

/-- Source: `#define MAX_TIMEOUT 0xFFFULL` (an `unsigned long long` constant). -/
def MAX_TIMEOUT : Nat := 0xFFF

/-- Source: `#define TICKS_PER_MS (LPO_CLOCK_FREQUENCY / 1000)`. -/
def TICKS_PER_MS : Nat := LPO_CLOCK_FREQUENCY / 1000

/-- Source: `const uint64_t max_timeout_ms = ((MAX_TIMEOUT / TICKS_PER_MS) * MAX_PRESCALER);`. -/
def max_timeout_ms : Nat := ((MAX_TIMEOUT / TICKS_PER_MS) * MAX_PRESCALER) % 2 ^ 64

/-- Source: `#define CALCULATE_MAX_TIMEOUT_MS(scale) ((MAX_TIMEOUT / TICKS_PER_MS) * scale)`;
the product is an `unsigned long long`. -/
def CALCULATE_MAX_TIMEOUT_MS (scale : Nat) : Nat :=
  ((MAX_TIMEOUT / TICKS_PER_MS) * scale) % 2 ^ 64

/-- Modelled from the spec: the macro `MAX_TIMEOUT_MS`, used by
`calculate_prescaler_value` and `hal_watchdog_init`, is not defined in
`watchdog.c`. The specification names the bound these checks compare with
`max_timeout_ms`, "the global max at the largest divisor 256". -/
def MAX_TIMEOUT_MS : Nat := max_timeout_ms

/-! ## Types declared in headers -/

/-- Modelled from the spec: `watchdog_status_t` is declared in `watchdog_api.h`;
the specification lists exactly these three outcomes. -/
inductive watchdog_status_t where
  | WATCHDOG_STATUS_OK
  | WATCHDOG_STATUS_NOT_SUPPORTED
  | WATCHDOG_STATUS_INVALID_ARGUMENT
deriving DecidableEq, Repr

/-- Modelled from the spec: `watchdog_config_t` is declared in `watchdog_api.h`.
The two durations are `uint32_t` values (any natural number below `2 ^ 32`). -/
structure watchdog_config_t where
  timeout_ms : Nat
  window_ms : Nat
  enable_sleep : Bool
deriving DecidableEq, Repr

/-- Modelled from the spec: `watchdog_features_t` is declared in `watchdog_api.h`. -/
structure watchdog_features_t where
  max_timeout : Nat
  max_timeout_window_mode : Nat
  update_config : Bool
  disable_watchdog : Bool
  pause_during_sleep : Bool
deriving DecidableEq, Repr

/-- The three registers of the `IWDG` block that the driver touches. -/
inductive IWDG_Reg where
  | KR
  | PR
  | RLR
deriving DecidableEq, Repr

/-- Modelled from the spec: `IWDG_TypeDef` is declared in `device.h`. Each
register is a 32-bit cell holding the value last stored in it. -/
structure IWDG_TypeDef where
  KR : Nat
  PR : Nat
  RLR : Nat
deriving DecidableEq, Repr

/-- The device as the driver sees it: the register block and the sequence of
volatile stores issued so far, oldest first. -/
structure Device where
  IWDG : IWDG_TypeDef
  writes : List (IWDG_Reg × Nat)
deriving DecidableEq, Repr

/-- One volatile store `IWDG->r = v`: the 32-bit value lands in the register
and the store is appended to the sequence of issued stores. -/
def Device.store (dev : Device) (r : IWDG_Reg) (v : Nat) : Device :=
  let w := v % 2 ^ 32
  match r with
  | .KR => { IWDG := { dev.IWDG with KR := w }, writes := dev.writes ++ [(.KR, w)] }
  | .PR => { IWDG := { dev.IWDG with PR := w }, writes := dev.writes ++ [(.PR, w)] }
  | .RLR => { IWDG := { dev.IWDG with RLR := w }, writes := dev.writes ++ [(.RLR, w)] }

/-! ## The prescaler selector -/

/-- The loop `for (uint32_t scale = 0; scale < 7; ++scale)` of
`calculate_prescaler_value`, entered at `scale` with `remaining = 7 - scale`
iterations left. `some scale` is the `return scale` inside the body, `none` is
leaving the loop through its condition. -/
def calculate_prescaler_loop (timeout_ms : Nat) : (remaining : Nat) → (scale : Nat) → Option Nat
  | 0, _ => none
  | remaining + 1, scale =>
    let prescaler := (4 <<< scale) % 2 ^ 32
    if timeout_ms < CALCULATE_MAX_TIMEOUT_MS prescaler then
      some scale
    else
      calculate_prescaler_loop timeout_ms remaining (scale + 1)

/-- Source: `static uint32_t calculate_prescaler_value(const uint32_t timeout_ms)`. -/
def calculate_prescaler_value (timeout_ms : Nat) : Nat :=
  if timeout_ms > MAX_TIMEOUT_MS then
    0
  else
    match calculate_prescaler_loop timeout_ms 7 0 with
    | some scale => scale
    | none => 0

/-! ## The controller -/

/-- Source: `watchdog_status_t hal_watchdog_init(const watchdog_config_t *config)`.
A `NULL` pointer is `none`. -/
def hal_watchdog_init (config : Option watchdog_config_t) (dev : Device) :
    watchdog_status_t × Device :=
  match config with
  | none => (.WATCHDOG_STATUS_INVALID_ARGUMENT, dev)
  | some config =>
    if config.timeout_ms = 0 then
      (.WATCHDOG_STATUS_INVALID_ARGUMENT, dev)
    else if config.timeout_ms > MAX_TIMEOUT_MS then
      (.WATCHDOG_STATUS_INVALID_ARGUMENT, dev)
    else if config.window_ms > MAX_TIMEOUT_MS then
      (.WATCHDOG_STATUS_INVALID_ARGUMENT, dev)
    else if config.window_ms > config.timeout_ms then
      (.WATCHDOG_STATUS_INVALID_ARGUMENT, dev)
    else if config.enable_sleep = false then
      (.WATCHDOG_STATUS_NOT_SUPPORTED, dev)
    else
      let prescaler := calculate_prescaler_value config.timeout_ms
      if prescaler = 0 then
        (.WATCHDOG_STATUS_INVALID_ARGUMENT, dev)
      else
        let dev := dev.store .KR 0x5555
        let dev := dev.store .RLR
          (((TICKS_PER_MS * config.timeout_ms) % 2 ^ 32) / ((4 <<< prescaler) % 2 ^ 32))
        let dev := dev.store .PR prescaler
        let dev := dev.store .KR 0xAAAA
        let dev := dev.store .KR 0xCCCC
        (.WATCHDOG_STATUS_OK, dev)

/-- Source: `void hal_watchdog_kick(void)`. -/
def hal_watchdog_kick (dev : Device) : Device :=
  dev.store .KR 0xAAAA

/-- Source: `watchdog_status_t hal_watchdog_stop(void)`. -/
def hal_watchdog_stop (dev : Device) : watchdog_status_t × Device :=
  (.WATCHDOG_STATUS_NOT_SUPPORTED, dev)

/-- Source: `uint32_t hal_watchdog_get_reload_value(void)`. -/
def hal_watchdog_get_reload_value (dev : Device) : Nat :=
  let timeout := dev.IWDG.RLR &&& 0xFFF
  let prescaler := (4 <<< (dev.IWDG.PR &&& 0x7)) % 2 ^ 32
  ((timeout / TICKS_PER_MS) * prescaler) % 2 ^ 32

/-- Source: `watchdog_features_t hal_watchdog_get_max_timeout(void)`. -/
def hal_watchdog_get_max_timeout (_dev : Device) : watchdog_features_t :=
  { max_timeout := max_timeout_ms
    max_timeout_window_mode := max_timeout_ms
    update_config := true
    disable_watchdog := false
    pause_during_sleep := true }

/-- A register block with every register reading zero and no store issued. -/
def Device.reset : Device :=
  { IWDG := { KR := 0, PR := 0, RLR := 0 }, writes := [] }

/-- A call of one of the entry points that store to the device. -/
inductive Call where
  | init (config : Option watchdog_config_t)
  | kick
deriving DecidableEq, Repr

/-- The device after one call; the status that `hal_watchdog_init` returns is
dropped. -/
def Call.run (call : Call) (dev : Device) : Device :=
  match call with
  | .init config => (hal_watchdog_init config dev).2
  | .kick => hal_watchdog_kick dev

/-- The device after a sequence of calls, the head of the list first. -/
def run_calls : List Call → Device → Device
  | [], dev => dev
  | call :: calls, dev => run_calls calls (call.run dev)

/-! ## Auxiliary facts -/

theorem max_timeout_ms_eq : max_timeout_ms = 26112 := by decide

theorem MAX_TIMEOUT_MS_eq : MAX_TIMEOUT_MS = 26112 := by decide

theorem TICKS_PER_MS_eq : TICKS_PER_MS = 40 := by decide

theorem CALCULATE_MAX_TIMEOUT_MS_eq (p : Nat) (hp : p < 2 ^ 32) :
    CALCULATE_MAX_TIMEOUT_MS p = 102 * p := by
  have h : MAX_TIMEOUT / TICKS_PER_MS = 102 := by decide
  unfold CALCULATE_MAX_TIMEOUT_MS
  rw [h]
  apply Nat.mod_eq_of_lt
  omega

/-- One iteration of the selector loop at a scale code below 7. -/
theorem calculate_prescaler_loop_succ (t n scale : Nat) (hs : scale < 7) :
    calculate_prescaler_loop t (n + 1) scale =
      if t < 102 * (4 <<< scale) then some scale
      else calculate_prescaler_loop t n (scale + 1) := by
  have h4 : 4 <<< scale < 2 ^ 32 := by
    interval_cases scale <;> decide
  simp only [calculate_prescaler_loop]
  rw [Nat.mod_eq_of_lt h4, CALCULATE_MAX_TIMEOUT_MS_eq _ h4]

/-- The selector written out as the ladder of boundaries it tests. -/
theorem calculate_prescaler_value_ladder (t : Nat) :
    calculate_prescaler_value t =
      if t < 408 then 0 else if t < 816 then 1 else if t < 1632 then 2
      else if t < 3264 then 3 else if t < 6528 then 4 else if t < 13056 then 5
      else if t < 26112 then 6 else 0 := by
  unfold calculate_prescaler_value
  rw [MAX_TIMEOUT_MS_eq]
  rw [calculate_prescaler_loop_succ t 6 0 (by decide), calculate_prescaler_loop_succ t 5 1 (by decide),
    calculate_prescaler_loop_succ t 4 2 (by decide), calculate_prescaler_loop_succ t 3 3 (by decide),
    calculate_prescaler_loop_succ t 2 4 (by decide), calculate_prescaler_loop_succ t 1 5 (by decide),
    calculate_prescaler_loop_succ t 0 6 (by decide)]
  simp only [calculate_prescaler_loop]
  have e0 : 102 * 4 <<< 0 = 408 := by decide
  have e1 : 102 * 4 <<< 1 = 816 := by decide
  have e2 : 102 * 4 <<< 2 = 1632 := by decide
  have e3 : 102 * 4 <<< 3 = 3264 := by decide
  have e4 : 102 * 4 <<< 4 = 6528 := by decide
  have e5 : 102 * 4 <<< 5 = 13056 := by decide
  have e6 : 102 * 4 <<< 6 = 26112 := by decide
  rw [e0, e1, e2, e3, e4, e5, e6]
  split_ifs <;> first | rfl | omega

/-- The status of `hal_watchdog_init` is decided by the configuration alone. -/
theorem hal_watchdog_init_status (c : watchdog_config_t) (dev : Device) :
    (hal_watchdog_init (some c) dev).1 =
      if c.timeout_ms = 0 then .WATCHDOG_STATUS_INVALID_ARGUMENT
      else if c.timeout_ms > 26112 then .WATCHDOG_STATUS_INVALID_ARGUMENT
      else if c.window_ms > 26112 then .WATCHDOG_STATUS_INVALID_ARGUMENT
      else if c.window_ms > c.timeout_ms then .WATCHDOG_STATUS_INVALID_ARGUMENT
      else if c.enable_sleep = false then .WATCHDOG_STATUS_NOT_SUPPORTED
      else if calculate_prescaler_value c.timeout_ms = 0 then .WATCHDOG_STATUS_INVALID_ARGUMENT
      else .WATCHDOG_STATUS_OK := by
  simp only [hal_watchdog_init, MAX_TIMEOUT_MS_eq]
  split_ifs <;> rfl

/-- A status other than `OK` leaves the device as it was. -/
theorem hal_watchdog_init_not_ok (config : Option watchdog_config_t) (dev : Device)
    (h : (hal_watchdog_init config dev).1 ≠ .WATCHDOG_STATUS_OK) :
    (hal_watchdog_init config dev).2 = dev := by
  cases config with
  | none => rfl
  | some c =>
    revert h
    simp only [hal_watchdog_init]
    split_ifs <;> simp

/-- What `OK` says about the configuration. -/
theorem hal_watchdog_init_ok_bounds (c : watchdog_config_t) (dev : Device)
    (h : (hal_watchdog_init (some c) dev).1 = .WATCHDOG_STATUS_OK) :
    408 ≤ c.timeout_ms ∧ c.timeout_ms < 26112 ∧ c.window_ms ≤ c.timeout_ms ∧
      c.enable_sleep = true := by
  have hl := calculate_prescaler_value_ladder c.timeout_ms
  rw [hal_watchdog_init_status] at h
  generalize calculate_prescaler_value c.timeout_ms = p at h hl
  split_ifs at h with h0 h1 h2 h3 h4 h5
  have hs : c.enable_sleep = true := by
    cases hc : c.enable_sleep with
    | true => rfl
    | false => exact absurd hc h4
  split_ifs at hl <;> exact ⟨by omega, by omega, by omega, hs⟩

/-- The device that a successful `hal_watchdog_init` leaves. -/
theorem hal_watchdog_init_ok_device (c : watchdog_config_t) (dev : Device)
    (h : (hal_watchdog_init (some c) dev).1 = .WATCHDOG_STATUS_OK) :
    (hal_watchdog_init (some c) dev).2 =
      ((((dev.store .KR 0x5555).store .RLR
        (((TICKS_PER_MS * c.timeout_ms) % 2 ^ 32) /
          ((4 <<< calculate_prescaler_value c.timeout_ms) % 2 ^ 32))).store .PR
        (calculate_prescaler_value c.timeout_ms)).store .KR 0xAAAA).store .KR 0xCCCC := by
  revert h
  simp only [hal_watchdog_init]
  split_ifs <;> simp

/-- The sequence of stores that a successful `hal_watchdog_init` appends. -/
theorem hal_watchdog_init_ok_writes (c : watchdog_config_t) (dev : Device)
    (h : (hal_watchdog_init (some c) dev).1 = .WATCHDOG_STATUS_OK) :
    (hal_watchdog_init (some c) dev).2.writes =
      dev.writes ++
        [(.KR, 0x5555),
         (.RLR, (((TICKS_PER_MS * c.timeout_ms) % 2 ^ 32) /
            ((4 <<< calculate_prescaler_value c.timeout_ms) % 2 ^ 32)) % 2 ^ 32),
         (.PR, calculate_prescaler_value c.timeout_ms % 2 ^ 32),
         (.KR, 0xAAAA), (.KR, 0xCCCC)] := by
  rw [hal_watchdog_init_ok_device c dev h]
  simp only [Device.store, List.append_assoc, List.singleton_append]
  rfl

/-! ## Validation of the configuration -/

/-- C1, evaluated on the code: the configurations `timeout_ms = 100` and
`timeout_ms = 26112` (both with `window_ms = 0`, `enable_sleep = true`) lie in
the range `0 < timeout_ms <= max_timeout_ms`, `window_ms <= timeout_ms`, yet
`hal_watchdog_init` answers `WATCHDOG_STATUS_INVALID_ARGUMENT` for them in
every device state, because the selector yields the scale code 0 for both. -/
theorem hal_watchdog_init_rejects_in_range_timeouts :
    max_timeout_ms = (4095 / 40) * 256 ∧ max_timeout_ms = 26112 ∧
    (0 < 100 ∧ 100 ≤ max_timeout_ms ∧ 0 ≤ 100) ∧
    calculate_prescaler_value 100 = 0 ∧
    (∀ dev : Device, hal_watchdog_init (some ⟨100, 0, true⟩) dev =
      (.WATCHDOG_STATUS_INVALID_ARGUMENT, dev)) ∧
    (0 < 26112 ∧ 26112 ≤ max_timeout_ms ∧ 0 ≤ 26112) ∧
    calculate_prescaler_value 26112 = 0 ∧
    (∀ dev : Device, hal_watchdog_init (some ⟨26112, 0, true⟩) dev =
      (.WATCHDOG_STATUS_INVALID_ARGUMENT, dev)) := by
  refine ⟨by decide, by decide, by decide, by decide, ?_, by decide, by decide, ?_⟩
  · intro dev
    have h : (hal_watchdog_init (some ⟨100, 0, true⟩) dev).1 =
        .WATCHDOG_STATUS_INVALID_ARGUMENT := by
      rw [hal_watchdog_init_status]; decide
    exact Prod.ext h (hal_watchdog_init_not_ok _ dev (by rw [h]; decide))
  · intro dev
    have h : (hal_watchdog_init (some ⟨26112, 0, true⟩) dev).1 =
        .WATCHDOG_STATUS_INVALID_ARGUMENT := by
      rw [hal_watchdog_init_status]; decide
    exact Prod.ext h (hal_watchdog_init_not_ok _ dev (by rw [h]; decide))

/-- C2: a configuration whose `timeout_ms` is 0 or exceeds `max_timeout_ms`
(26112) makes `hal_watchdog_init` return `WATCHDOG_STATUS_INVALID_ARGUMENT`,
whatever `window_ms` and `enable_sleep` are; so does an absent configuration. -/
theorem hal_watchdog_init_timeout_out_of_range (timeout_ms window_ms : Nat)
    (enable_sleep : Bool) (dev : Device)
    (h : timeout_ms = 0 ∨ timeout_ms > max_timeout_ms) :
    max_timeout_ms = 26112 ∧
    hal_watchdog_init (some ⟨timeout_ms, window_ms, enable_sleep⟩) dev =
      (.WATCHDOG_STATUS_INVALID_ARGUMENT, dev) ∧
    hal_watchdog_init none dev = (.WATCHDOG_STATUS_INVALID_ARGUMENT, dev) := by
  refine ⟨max_timeout_ms_eq, ?_, rfl⟩
  simp only [hal_watchdog_init, MAX_TIMEOUT_MS]
  by_cases h0 : timeout_ms = 0
  · rw [if_pos h0]
  · rw [if_neg h0, if_pos (h.resolve_left h0)]

theorem hal_watchdog_init_timeout_out_of_range_witness :
    (30000 = 0 ∨ 30000 > max_timeout_ms) ∧
    (max_timeout_ms = 26112 ∧
      hal_watchdog_init (some ⟨30000, 0, false⟩) Device.reset =
        (.WATCHDOG_STATUS_INVALID_ARGUMENT, Device.reset) ∧
      hal_watchdog_init none Device.reset =
        (.WATCHDOG_STATUS_INVALID_ARGUMENT, Device.reset)) :=
  ⟨Or.inr (by decide),
    hal_watchdog_init_timeout_out_of_range 30000 0 false Device.reset (Or.inr (by decide))⟩

/-- C3: a configuration with `window_ms > timeout_ms` makes `hal_watchdog_init`
return `WATCHDOG_STATUS_INVALID_ARGUMENT`, for every `timeout_ms` and
`enable_sleep`, also when `window_ms <= max_timeout_ms`. -/
theorem hal_watchdog_init_window_exceeds_timeout (c : watchdog_config_t) (dev : Device)
    (h : c.window_ms > c.timeout_ms) :
    hal_watchdog_init (some c) dev = (.WATCHDOG_STATUS_INVALID_ARGUMENT, dev) := by
  simp only [hal_watchdog_init]
  by_cases h0 : c.timeout_ms = 0
  · rw [if_pos h0]
  · rw [if_neg h0]
    by_cases h1 : c.timeout_ms > MAX_TIMEOUT_MS
    · rw [if_pos h1]
    · rw [if_neg h1]
      by_cases h2 : c.window_ms > MAX_TIMEOUT_MS
      · rw [if_pos h2]
      · rw [if_neg h2, if_pos h]

theorem hal_watchdog_init_window_exceeds_timeout_witness :
    600 > 500 ∧ 600 ≤ max_timeout_ms ∧
    hal_watchdog_init (some ⟨500, 600, true⟩) Device.reset =
      (.WATCHDOG_STATUS_INVALID_ARGUMENT, Device.reset) :=
  ⟨by decide, by decide,
    hal_watchdog_init_window_exceeds_timeout ⟨500, 600, true⟩ Device.reset (by decide)⟩

/-- C4: a configuration with `enable_sleep = false` whose other fields are valid
(`0 < timeout_ms <= max_timeout_ms`, `window_ms <= timeout_ms`) makes
`hal_watchdog_init` return `WATCHDOG_STATUS_NOT_SUPPORTED`. -/
theorem hal_watchdog_init_sleep_disabled (c : watchdog_config_t) (dev : Device)
    (ht : 0 < c.timeout_ms) (hmax : c.timeout_ms ≤ max_timeout_ms)
    (hw : c.window_ms ≤ c.timeout_ms) (hs : c.enable_sleep = false) :
    hal_watchdog_init (some c) dev = (.WATCHDOG_STATUS_NOT_SUPPORTED, dev) := by
  simp only [hal_watchdog_init, MAX_TIMEOUT_MS]
  rw [if_neg (by omega), if_neg (by omega), if_neg (by omega), if_neg (by omega), if_pos hs]

theorem hal_watchdog_init_sleep_disabled_witness :
    hal_watchdog_init (some ⟨100, 50, false⟩) Device.reset =
      (.WATCHDOG_STATUS_NOT_SUPPORTED, Device.reset) :=
  hal_watchdog_init_sleep_disabled ⟨100, 50, false⟩ Device.reset
    (by decide) (by decide) (by decide) rfl

/-- C5: `hal_watchdog_init` has no partial-failure state. When it returns a
status other than `WATCHDOG_STATUS_OK` the device (registers `KR`, `RLR`, `PR`)
is unchanged and no store is issued; when it returns `WATCHDOG_STATUS_OK` it
issues exactly the stores `KR = 0x5555`, `RLR`, `PR`, `KR = 0xAAAA`,
`KR = 0xCCCC`, in that order. -/
theorem hal_watchdog_init_all_or_nothing (config : Option watchdog_config_t) (dev : Device) :
    ((hal_watchdog_init config dev).1 ≠ .WATCHDOG_STATUS_OK →
      (hal_watchdog_init config dev).2.IWDG = dev.IWDG ∧
      (hal_watchdog_init config dev).2.writes = dev.writes) ∧
    ((hal_watchdog_init config dev).1 = .WATCHDOG_STATUS_OK →
      ∃ rlr pr, (hal_watchdog_init config dev).2.writes =
        dev.writes ++
          [(.KR, 0x5555), (.RLR, rlr), (.PR, pr), (.KR, 0xAAAA), (.KR, 0xCCCC)]) := by
  constructor
  · intro h
    rw [hal_watchdog_init_not_ok config dev h]
    exact ⟨rfl, rfl⟩
  · intro h
    cases config with
    | none =>
      exact absurd (show watchdog_status_t.WATCHDOG_STATUS_INVALID_ARGUMENT =
        .WATCHDOG_STATUS_OK from h) (by decide)
    | some c => exact ⟨_, _, hal_watchdog_init_ok_writes c dev h⟩

/-! ## The programmed registers -/

/-- Between 408 and 26111 the selector returns a scale code from 1 to 6, the one
whose band holds the timeout. -/
theorem calculate_prescaler_value_bands (t : Nat) (h1 : 408 ≤ t) (h2 : t < 26112) :
    (calculate_prescaler_value t = 1 ∧ t < 816) ∨
    (calculate_prescaler_value t = 2 ∧ 816 ≤ t ∧ t < 1632) ∨
    (calculate_prescaler_value t = 3 ∧ 1632 ≤ t ∧ t < 3264) ∨
    (calculate_prescaler_value t = 4 ∧ 3264 ≤ t ∧ t < 6528) ∨
    (calculate_prescaler_value t = 5 ∧ 6528 ≤ t ∧ t < 13056) ∨
    (calculate_prescaler_value t = 6 ∧ 13056 ≤ t) := by
  have hl := calculate_prescaler_value_ladder t
  generalize calculate_prescaler_value t = p at hl
  split_ifs at hl <;> omega

/-- The device after a successful `hal_watchdog_init`, with the 32-bit
reductions discharged: the three registers and the five stores appended. -/
theorem hal_watchdog_init_ok_state (c : watchdog_config_t) (dev : Device)
    (h : (hal_watchdog_init (some c) dev).1 = .WATCHDOG_STATUS_OK) :
    (hal_watchdog_init (some c) dev).2 =
      { IWDG :=
          { KR := 0xCCCC
            PR := calculate_prescaler_value c.timeout_ms
            RLR := (40 * c.timeout_ms) / (4 <<< calculate_prescaler_value c.timeout_ms) }
        writes := dev.writes ++
          [(.KR, 0x5555),
           (.RLR, (40 * c.timeout_ms) / (4 <<< calculate_prescaler_value c.timeout_ms)),
           (.PR, calculate_prescaler_value c.timeout_ms),
           (.KR, 0xAAAA), (.KR, 0xCCCC)] } := by
  obtain ⟨h1, h2, -, -⟩ := hal_watchdog_init_ok_bounds c dev h
  rw [hal_watchdog_init_ok_device c dev h]
  simp only [Device.store, TICKS_PER_MS_eq, List.append_assoc, List.singleton_append]
  have e1 : 4 <<< 1 = 8 := by decide
  have e2 : 4 <<< 2 = 16 := by decide
  have e3 : 4 <<< 3 = 32 := by decide
  have e4 : 4 <<< 4 = 64 := by decide
  have e5 : 4 <<< 5 = 128 := by decide
  have e6 : 4 <<< 6 = 256 := by decide
  have hm : 40 * c.timeout_ms % 4294967296 = 40 * c.timeout_ms :=
    Nat.mod_eq_of_lt (by omega)
  rcases calculate_prescaler_value_bands c.timeout_ms h1 h2 with
    ⟨hk, hb⟩ | ⟨hk, hb⟩ | ⟨hk, hb⟩ | ⟨hk, hb⟩ | ⟨hk, hb⟩ | ⟨hk, hb⟩ <;>
  · rw [hk]
    simp only [e1, e2, e3, e4, e5, e6, Nat.reducePow, Nat.reduceMod]
    rw [hm, Nat.mod_eq_of_lt (by omega)]
    rfl

/-- Dividing the tick count by the ticks per millisecond and multiplying by the
divisor undoes the forward computation up to the remainder of the divisor. -/
theorem readback_arith (t d : Nat) (ht : 40 * t / d < 4096)
    (h32 : t < 4294967296) :
    40 * t / d % 4096 / 40 * d % 4294967296 = t / d * d := by
  rw [Nat.mod_eq_of_lt ht, Nat.div_div_eq_div_mul, Nat.mul_comm d 40,
    Nat.mul_div_mul_left _ _ (by decide : 0 < 40)]
  exact Nat.mod_eq_of_lt (lt_of_le_of_lt (Nat.div_mul_le_self t d) h32)

/-- The value read back after a successful `hal_watchdog_init` is the timeout
rounded down to a multiple of the selected divisor. -/
theorem hal_watchdog_init_ok_readback (c : watchdog_config_t) (dev : Device)
    (h : (hal_watchdog_init (some c) dev).1 = .WATCHDOG_STATUS_OK) :
    hal_watchdog_get_reload_value (hal_watchdog_init (some c) dev).2 =
      c.timeout_ms / (4 <<< calculate_prescaler_value c.timeout_ms) *
        (4 <<< calculate_prescaler_value c.timeout_ms) := by
  obtain ⟨h1, h2, -, -⟩ := hal_watchdog_init_ok_bounds c dev h
  rw [hal_watchdog_init_ok_state c dev h]
  simp only [hal_watchdog_get_reload_value, TICKS_PER_MS_eq]
  have e1 : 4 <<< 1 = 8 := by decide
  have e2 : 4 <<< 2 = 16 := by decide
  have e3 : 4 <<< 3 = 32 := by decide
  have e4 : 4 <<< 4 = 64 := by decide
  have e5 : 4 <<< 5 = 128 := by decide
  have e6 : 4 <<< 6 = 256 := by decide
  have a1 : 1 &&& 7 = 1 := by decide
  have a2 : 2 &&& 7 = 2 := by decide
  have a3 : 3 &&& 7 = 3 := by decide
  have a4 : 4 &&& 7 = 4 := by decide
  have a5 : 5 &&& 7 = 5 := by decide
  have a6 : 6 &&& 7 = 6 := by decide
  have hand : ∀ x : Nat, x &&& 4095 = x % 4096 := fun x =>
    Nat.and_pow_two_sub_one_eq_mod x 12
  rcases calculate_prescaler_value_bands c.timeout_ms h1 h2 with
    ⟨hk, hb⟩ | ⟨hk, hb⟩ | ⟨hk, hb⟩ | ⟨hk, hb⟩ | ⟨hk, hb⟩ | ⟨hk, hb⟩ <;>
  · rw [hk]
    simp only [e1, e2, e3, e4, e5, e6, a1, a2, a3, a4, a5, a6, hand, Nat.reducePow,
      Nat.reduceMod]
    exact readback_arith c.timeout_ms _ (by omega) (by omega)

/-- C6: whenever `hal_watchdog_init` returns `WATCHDOG_STATUS_OK` for a
configuration with timeout `t`, the product `40 * t` does not overflow 32 bits,
the registers are left as `PR = scale` and `RLR = (40 * t) / (4 << scale)` with
`scale = calculate_prescaler_value t`, and the stores are, in order, the unlock
key `0x5555`, `RLR`, `PR`, the feed key `0xAAAA` and last the enable key
`0xCCCC`, which is the value `KR` holds. -/
theorem hal_watchdog_init_programs_registers (c : watchdog_config_t) (dev : Device)
    (h : (hal_watchdog_init (some c) dev).1 = .WATCHDOG_STATUS_OK) :
    TICKS_PER_MS * c.timeout_ms = 40 * c.timeout_ms ∧ 40 * c.timeout_ms < 2 ^ 32 ∧
    (hal_watchdog_init (some c) dev).2.IWDG.PR = calculate_prescaler_value c.timeout_ms ∧
    (hal_watchdog_init (some c) dev).2.IWDG.RLR =
      (40 * c.timeout_ms) / (4 <<< calculate_prescaler_value c.timeout_ms) ∧
    (hal_watchdog_init (some c) dev).2.IWDG.KR = 0xCCCC ∧
    (hal_watchdog_init (some c) dev).2.writes =
      dev.writes ++
        [(.KR, 0x5555),
         (.RLR, (40 * c.timeout_ms) / (4 <<< calculate_prescaler_value c.timeout_ms)),
         (.PR, calculate_prescaler_value c.timeout_ms),
         (.KR, 0xAAAA), (.KR, 0xCCCC)] := by
  obtain ⟨-, h2, -, -⟩ := hal_watchdog_init_ok_bounds c dev h
  rw [hal_watchdog_init_ok_state c dev h, TICKS_PER_MS_eq]
  exact ⟨rfl, by omega, rfl, rfl, rfl, rfl⟩

theorem hal_watchdog_init_programs_registers_witness :
    (hal_watchdog_init (some ⟨2000, 0, true⟩) Device.reset).1 = .WATCHDOG_STATUS_OK ∧
    (TICKS_PER_MS * 2000 = 40 * 2000 ∧ 40 * 2000 < 2 ^ 32 ∧
    (hal_watchdog_init (some ⟨2000, 0, true⟩) Device.reset).2.IWDG.PR =
      calculate_prescaler_value 2000 ∧
    (hal_watchdog_init (some ⟨2000, 0, true⟩) Device.reset).2.IWDG.RLR =
      (40 * 2000) / (4 <<< calculate_prescaler_value 2000) ∧
    (hal_watchdog_init (some ⟨2000, 0, true⟩) Device.reset).2.IWDG.KR = 0xCCCC ∧
    (hal_watchdog_init (some ⟨2000, 0, true⟩) Device.reset).2.writes =
      Device.reset.writes ++
        [(.KR, 0x5555),
         (.RLR, (40 * 2000) / (4 <<< calculate_prescaler_value 2000)),
         (.PR, calculate_prescaler_value 2000),
         (.KR, 0xAAAA), (.KR, 0xCCCC)]) :=
  ⟨by decide, hal_watchdog_init_programs_registers ⟨2000, 0, true⟩ Device.reset (by decide)⟩

/-- C7: whenever `hal_watchdog_init` returns `WATCHDOG_STATUS_OK`, the value it
leaves in `RLR` fits the 12-bit counter and the code it leaves in `PR` fits the
3-bit field, so the masks `0xFFF` and `0x7` of `hal_watchdog_get_reload_value`
return both unchanged. -/
theorem hal_watchdog_init_registers_fit (c : watchdog_config_t) (dev : Device)
    (h : (hal_watchdog_init (some c) dev).1 = .WATCHDOG_STATUS_OK) :
    (hal_watchdog_init (some c) dev).2.IWDG.RLR ≤ 0xFFF ∧
    (hal_watchdog_init (some c) dev).2.IWDG.PR ≤ 7 ∧
    (hal_watchdog_init (some c) dev).2.IWDG.RLR &&& 0xFFF =
      (hal_watchdog_init (some c) dev).2.IWDG.RLR ∧
    (hal_watchdog_init (some c) dev).2.IWDG.PR &&& 0x7 =
      (hal_watchdog_init (some c) dev).2.IWDG.PR := by
  obtain ⟨h1, h2, -, -⟩ := hal_watchdog_init_ok_bounds c dev h
  rw [hal_watchdog_init_ok_state c dev h]
  have e1 : 4 <<< 1 = 8 := by decide
  have e2 : 4 <<< 2 = 16 := by decide
  have e3 : 4 <<< 3 = 32 := by decide
  have e4 : 4 <<< 4 = 64 := by decide
  have e5 : 4 <<< 5 = 128 := by decide
  have e6 : 4 <<< 6 = 256 := by decide
  have m12 : ∀ x : Nat, x < 4096 → x &&& 0xFFF = x := fun x hx =>
    Nat.and_pow_two_sub_one_of_lt_two_pow (n := 12) hx
  have m3 : ∀ x : Nat, x < 8 → x &&& 0x7 = x := fun x hx =>
    Nat.and_pow_two_sub_one_of_lt_two_pow (n := 3) hx
  rcases calculate_prescaler_value_bands c.timeout_ms h1 h2 with
    ⟨hk, hb⟩ | ⟨hk, hb⟩ | ⟨hk, hb⟩ | ⟨hk, hb⟩ | ⟨hk, hb⟩ | ⟨hk, hb⟩ <;>
  · simp only [hk, e1, e2, e3, e4, e5, e6]
    exact ⟨by omega, by omega, m12 _ (by omega), m3 _ (by omega)⟩

theorem hal_watchdog_init_registers_fit_witness :
    (hal_watchdog_init (some ⟨26111, 0, true⟩) Device.reset).1 = .WATCHDOG_STATUS_OK ∧
    ((hal_watchdog_init (some ⟨26111, 0, true⟩) Device.reset).2.IWDG.RLR ≤ 0xFFF ∧
    (hal_watchdog_init (some ⟨26111, 0, true⟩) Device.reset).2.IWDG.PR ≤ 7 ∧
    (hal_watchdog_init (some ⟨26111, 0, true⟩) Device.reset).2.IWDG.RLR &&& 0xFFF =
      (hal_watchdog_init (some ⟨26111, 0, true⟩) Device.reset).2.IWDG.RLR ∧
    (hal_watchdog_init (some ⟨26111, 0, true⟩) Device.reset).2.IWDG.PR &&& 0x7 =
      (hal_watchdog_init (some ⟨26111, 0, true⟩) Device.reset).2.IWDG.PR) :=
  ⟨by decide, hal_watchdog_init_registers_fit ⟨26111, 0, true⟩ Device.reset (by decide)⟩

/-! ## Reading the timeout back -/

/-- C8 as stated fails: for `timeout_ms = 2000` (valid, `window_ms = 0`,
`enable_sleep = true`) `hal_watchdog_init` returns `WATCHDOG_STATUS_OK` with
scale 3, `hal_watchdog_get_reload_value` then returns 1984, and
`2000 - granularity(3) < 1984` is false for `granularity(3) = 32 / 40`, whether
the quotient is taken in the integers (0) or in the rationals (4/5). -/
theorem hal_watchdog_round_trip_granularity_counterexample :
    (0 < 2000 ∧ 2000 ≤ max_timeout_ms) ∧
    (hal_watchdog_init (some ⟨2000, 0, true⟩) Device.reset).1 = .WATCHDOG_STATUS_OK ∧
    calculate_prescaler_value 2000 = 3 ∧
    hal_watchdog_get_reload_value (hal_watchdog_init (some ⟨2000, 0, true⟩) Device.reset).2
      = 1984 ∧
    ¬ ((2000 : Int) - (((4 <<< calculate_prescaler_value 2000) / TICKS_PER_MS : Nat) : Int) <
        ((hal_watchdog_get_reload_value
          (hal_watchdog_init (some ⟨2000, 0, true⟩) Device.reset).2 : Nat) : Int)) ∧
    ¬ ((2000 : ℚ) - ((4 <<< calculate_prescaler_value 2000 : Nat) : ℚ) / (TICKS_PER_MS : ℚ) <
        ((hal_watchdog_get_reload_value
          (hal_watchdog_init (some ⟨2000, 0, true⟩) Device.reset).2 : Nat) : ℚ)) := by
  have hs : calculate_prescaler_value 2000 = 3 := by decide
  have hv : hal_watchdog_get_reload_value
      (hal_watchdog_init (some ⟨2000, 0, true⟩) Device.reset).2 = 1984 := by decide
  refine ⟨by decide, by decide, hs, hv, ?_, ?_⟩
  · rw [hs, hv]; decide
  · rw [hs, hv, TICKS_PER_MS_eq]
    have e3 : 4 <<< 3 = 32 := by decide
    rw [e3]
    norm_num

/-- C8, amended: for every `timeout_ms` for which `hal_watchdog_init` (with
`window_ms = 0`, `enable_sleep = true`) returns `WATCHDOG_STATUS_OK`, the value
`v` that `hal_watchdog_get_reload_value` returns on the resulting registers
satisfies `timeout_ms - (4 << scale) < v <= timeout_ms`, where
`scale = calculate_prescaler_value timeout_ms`: the granularity is the divisor
itself, in milliseconds. -/
theorem hal_watchdog_round_trip_bound (timeout_ms : Nat) (dev : Device)
    (h : (hal_watchdog_init (some ⟨timeout_ms, 0, true⟩) dev).1 = .WATCHDOG_STATUS_OK) :
    (timeout_ms : Int) - ((4 <<< calculate_prescaler_value timeout_ms : Nat) : Int) <
      ((hal_watchdog_get_reload_value
        (hal_watchdog_init (some ⟨timeout_ms, 0, true⟩) dev).2 : Nat) : Int) ∧
    hal_watchdog_get_reload_value (hal_watchdog_init (some ⟨timeout_ms, 0, true⟩) dev).2
      ≤ timeout_ms := by
  rw [hal_watchdog_init_ok_readback ⟨timeout_ms, 0, true⟩ dev h]
  show (timeout_ms : Int) - ((4 <<< calculate_prescaler_value timeout_ms : Nat) : Int) <
      ((timeout_ms / (4 <<< calculate_prescaler_value timeout_ms) *
        (4 <<< calculate_prescaler_value timeout_ms) : Nat) : Int) ∧
    timeout_ms / (4 <<< calculate_prescaler_value timeout_ms) *
        (4 <<< calculate_prescaler_value timeout_ms) ≤ timeout_ms
  have hd : 0 < 4 <<< calculate_prescaler_value timeout_ms := by
    rw [Nat.shiftLeft_eq]; positivity
  generalize 4 <<< calculate_prescaler_value timeout_ms = d at hd ⊢
  have hle := Nat.div_mul_le_self timeout_ms d
  have hlt := Nat.lt_div_mul_add (a := timeout_ms) hd
  refine ⟨?_, hle⟩
  omega

theorem hal_watchdog_round_trip_bound_witness :
    (hal_watchdog_init (some ⟨2000, 0, true⟩) Device.reset).1 = .WATCHDOG_STATUS_OK ∧
    ((2000 : Int) - ((4 <<< calculate_prescaler_value 2000 : Nat) : Int) <
      ((hal_watchdog_get_reload_value
        (hal_watchdog_init (some ⟨2000, 0, true⟩) Device.reset).2 : Nat) : Int) ∧
    hal_watchdog_get_reload_value (hal_watchdog_init (some ⟨2000, 0, true⟩) Device.reset).2
      ≤ 2000) :=
  ⟨by decide, hal_watchdog_round_trip_bound 2000 Device.reset (by decide)⟩

/-! ## Prescaler selection -/

/-- C9: for every `timeout_ms` for which some scale code in 0..6 satisfies
`timeout_ms < (4095 / 40) * (4 << scale)`, `calculate_prescaler_value` returns
the smallest such code: the returned `s` is below 7, satisfies
`timeout_ms < 102 * (4 << s)`, and every `s' < s` has
`102 * (4 << s') <= timeout_ms`. -/
theorem calculate_prescaler_value_smallest (timeout_ms : Nat)
    (h : ∃ scale, scale < 7 ∧ timeout_ms < (4095 / 40) * (4 <<< scale)) :
    calculate_prescaler_value timeout_ms < 7 ∧
    timeout_ms < 102 * (4 <<< calculate_prescaler_value timeout_ms) ∧
    timeout_ms < CALCULATE_MAX_TIMEOUT_MS (4 <<< calculate_prescaler_value timeout_ms) ∧
    ∀ s', s' < calculate_prescaler_value timeout_ms → 102 * (4 <<< s') ≤ timeout_ms := by
  have e0 : 4 <<< 0 = 4 := by decide
  have e1 : 4 <<< 1 = 8 := by decide
  have e2 : 4 <<< 2 = 16 := by decide
  have e3 : 4 <<< 3 = 32 := by decide
  have e4 : 4 <<< 4 = 64 := by decide
  have e5 : 4 <<< 5 = 128 := by decide
  have e6 : 4 <<< 6 = 256 := by decide
  have hmax : timeout_ms < 26112 := by
    obtain ⟨scale, hs, hlt⟩ := h
    have hq : 4095 / 40 = 102 := by decide
    rw [hq] at hlt
    interval_cases scale <;> simp only [e0, e1, e2, e3, e4, e5, e6] at hlt <;> omega
  have hl := calculate_prescaler_value_ladder timeout_ms
  generalize calculate_prescaler_value timeout_ms = p at hl ⊢
  have key : p < 7 ∧ timeout_ms < 102 * (4 <<< p) ∧
      ∀ s', s' < p → 102 * (4 <<< s') ≤ timeout_ms := by
    split_ifs at hl <;> subst hl <;>
      refine ⟨by omega, by simp only [e0, e1, e2, e3, e4, e5, e6]; omega, ?_⟩ <;>
      intro s' hs' <;> interval_cases s' <;>
      simp only [e0, e1, e2, e3, e4, e5, e6] <;> omega
  refine ⟨key.1, key.2.1, ?_, key.2.2⟩
  rw [CALCULATE_MAX_TIMEOUT_MS_eq]
  · exact key.2.1
  · have hp := key.1
    interval_cases p <;> decide

theorem calculate_prescaler_value_smallest_witness :
    (∃ scale, scale < 7 ∧ 816 < (4095 / 40) * (4 <<< scale)) ∧
    (calculate_prescaler_value 816 < 7 ∧
    816 < 102 * (4 <<< calculate_prescaler_value 816) ∧
    816 < CALCULATE_MAX_TIMEOUT_MS (4 <<< calculate_prescaler_value 816) ∧
    ∀ s', s' < calculate_prescaler_value 816 → 102 * (4 <<< s') ≤ 816) :=
  ⟨⟨2, by decide, by decide⟩,
    calculate_prescaler_value_smallest 816 ⟨2, by decide, by decide⟩⟩

/-- C10 as stated fails: `500 < 30000` and `26111 < 26112`, yet the selector
returns 0 for 30000 and for 26112, below the codes 1 and 6 that it returns for
500 and 26111. -/
theorem calculate_prescaler_value_not_monotone :
    (500 < 30000 ∧ ¬ (calculate_prescaler_value 30000 ≥ calculate_prescaler_value 500)) ∧
    (26111 < 26112 ∧
      ¬ (calculate_prescaler_value 26112 ≥ calculate_prescaler_value 26111)) := by
  decide

/-- C10, amended: for every two timeouts `t1 < t2` with `t2 < max_timeout_ms`
(so that some scale code fits `t2`),
`calculate_prescaler_value t2 >= calculate_prescaler_value t1`. -/
theorem calculate_prescaler_value_monotone (t1 t2 : Nat) (h : t1 < t2)
    (hmax : t2 < max_timeout_ms) :
    calculate_prescaler_value t2 ≥ calculate_prescaler_value t1 := by
  rw [max_timeout_ms_eq] at hmax
  have hl1 := calculate_prescaler_value_ladder t1
  have hl2 := calculate_prescaler_value_ladder t2
  generalize calculate_prescaler_value t1 = p1 at hl1 ⊢
  generalize calculate_prescaler_value t2 = p2 at hl2 ⊢
  split_ifs at hl1 <;> split_ifs at hl2 <;> omega

theorem calculate_prescaler_value_monotone_witness :
    500 < 2000 ∧ 2000 < max_timeout_ms ∧
    calculate_prescaler_value 2000 ≥ calculate_prescaler_value 500 :=
  ⟨by decide, by decide, calculate_prescaler_value_monotone 500 2000 (by decide) (by decide)⟩

/-! ## Re-initialisation, kick, stop and the feature record -/

/-- A kick leaves the value that `hal_watchdog_get_reload_value` computes. -/
theorem hal_watchdog_kick_reload_value (dev : Device) :
    hal_watchdog_get_reload_value (hal_watchdog_kick dev) =
      hal_watchdog_get_reload_value dev := rfl

/-- C11: for every register state and every configuration for which
`hal_watchdog_init` returns `WATCHDOG_STATUS_OK`, running it a second time with
the same configuration returns `WATCHDOG_STATUS_OK` again and leaves the same
values in `KR`, `RLR` and `PR` as the first run. -/
theorem hal_watchdog_init_idempotent (c : watchdog_config_t) (dev : Device)
    (h : (hal_watchdog_init (some c) dev).1 = .WATCHDOG_STATUS_OK) :
    (hal_watchdog_init (some c) (hal_watchdog_init (some c) dev).2).1 =
      .WATCHDOG_STATUS_OK ∧
    (hal_watchdog_init (some c) (hal_watchdog_init (some c) dev).2).2.IWDG =
      (hal_watchdog_init (some c) dev).2.IWDG := by
  have h2 : (hal_watchdog_init (some c) (hal_watchdog_init (some c) dev).2).1 =
      .WATCHDOG_STATUS_OK := by
    rw [hal_watchdog_init_status] at h ⊢
    exact h
  refine ⟨h2, ?_⟩
  exact (congrArg Device.IWDG (hal_watchdog_init_ok_state c _ h2)).trans
    (congrArg Device.IWDG (hal_watchdog_init_ok_state c dev h)).symm

theorem hal_watchdog_init_idempotent_witness :
    (hal_watchdog_init (some ⟨2000, 100, true⟩) Device.reset).1 = .WATCHDOG_STATUS_OK ∧
    ((hal_watchdog_init (some ⟨2000, 100, true⟩)
        (hal_watchdog_init (some ⟨2000, 100, true⟩) Device.reset).2).1 =
      .WATCHDOG_STATUS_OK ∧
    (hal_watchdog_init (some ⟨2000, 100, true⟩)
        (hal_watchdog_init (some ⟨2000, 100, true⟩) Device.reset).2).2.IWDG =
      (hal_watchdog_init (some ⟨2000, 100, true⟩) Device.reset).2.IWDG) :=
  ⟨by decide, hal_watchdog_init_idempotent ⟨2000, 100, true⟩ Device.reset (by decide)⟩

/-- C12: `hal_watchdog_kick` stores the feed key `0xAAAA` to `KR` and nothing
else: `RLR` and `PR` are as before, so `hal_watchdog_get_reload_value` returns
the same value after one kick and after any number `n` of kicks. -/
theorem hal_watchdog_kick_frame (dev : Device) (n : Nat) :
    (hal_watchdog_kick dev).IWDG.KR = 0xAAAA ∧
    (hal_watchdog_kick dev).writes = dev.writes ++ [(.KR, 0xAAAA)] ∧
    (hal_watchdog_kick dev).IWDG.RLR = dev.IWDG.RLR ∧
    (hal_watchdog_kick dev).IWDG.PR = dev.IWDG.PR ∧
    hal_watchdog_get_reload_value (hal_watchdog_kick dev) =
      hal_watchdog_get_reload_value dev ∧
    hal_watchdog_get_reload_value (hal_watchdog_kick^[n] dev) =
      hal_watchdog_get_reload_value dev := by
  refine ⟨rfl, rfl, rfl, rfl, rfl, ?_⟩
  induction n generalizing dev with
  | zero => rfl
  | succ n ih =>
    rw [Function.iterate_succ_apply, ih, hal_watchdog_kick_reload_value]

/-- C13: `hal_watchdog_stop` returns `WATCHDOG_STATUS_NOT_SUPPORTED` and leaves
the device unchanged in every register state, in particular in the state that
any sequence of `hal_watchdog_init` and `hal_watchdog_kick` calls leaves. -/
theorem hal_watchdog_stop_not_supported (dev : Device) (calls : List Call) :
    hal_watchdog_stop dev = (.WATCHDOG_STATUS_NOT_SUPPORTED, dev) ∧
    hal_watchdog_stop (run_calls calls dev) =
      (.WATCHDOG_STATUS_NOT_SUPPORTED, run_calls calls dev) :=
  ⟨rfl, rfl⟩

/-- C14: `hal_watchdog_get_max_timeout` returns, in every register state and
after any sequence of `hal_watchdog_init` and `hal_watchdog_kick` calls, the
record with `max_timeout = max_timeout_window_mode = 26112`,
`update_config = true`, `disable_watchdog = false`, `pause_during_sleep = true`;
26112 is `(4095 / 40) * 256`, the maximum timeout at the largest divisor. -/
theorem hal_watchdog_get_max_timeout_constant (dev : Device) (calls : List Call) :
    hal_watchdog_get_max_timeout dev =
      { max_timeout := 26112
        max_timeout_window_mode := 26112
        update_config := true
        disable_watchdog := false
        pause_during_sleep := true } ∧
    hal_watchdog_get_max_timeout (run_calls calls dev) = hal_watchdog_get_max_timeout dev ∧
    (4095 / 40) * 256 = 26112 ∧
    CALCULATE_MAX_TIMEOUT_MS MAX_PRESCALER = 26112 ∧
    MAX_PRESCALER = 4 <<< 6 := by
  refine ⟨?_, rfl, by decide, by decide, by decide⟩
  unfold hal_watchdog_get_max_timeout
  rw [max_timeout_ms_eq]

/-! ## The selector seen from the controller -/

/-- C15, evaluated on the code: the configuration `timeout_ms = 26112`,
`window_ms = 0`, `enable_sleep = true` passes every check that precedes the
selector call in `hal_watchdog_init` and passes the guard at the head of
`calculate_prescaler_value`, yet no scale code in 0..6 fits it: the loop ends
without returning and the selector leaves through its final `return 0`. -/
theorem calculate_prescaler_value_falls_through_at_max :
    (0 < 26112 ∧ 26112 ≤ max_timeout_ms ∧ 0 ≤ 26112) ∧
    ¬ (26112 > MAX_TIMEOUT_MS) ∧
    calculate_prescaler_loop 26112 7 0 = none ∧
    (∀ scale, scale < 7 → ¬ (26112 < 102 * (4 <<< scale))) ∧
    calculate_prescaler_value 26112 = 0 ∧
    (∀ dev : Device, (hal_watchdog_init (some ⟨26112, 0, true⟩) dev).1 =
      .WATCHDOG_STATUS_INVALID_ARGUMENT) := by
  refine ⟨by decide, by decide, by decide, by decide, by decide, ?_⟩
  intro dev
  rw [hal_watchdog_init_status]
  decide

/-- C16: `calculate_prescaler_value` returns 0 for every `timeout_ms` that no
scale code in 0..6 fits and for every `timeout_ms > max_timeout_ms`, the same
value it returns for every `timeout_ms < 408`; and when `hal_watchdog_init`
reaches the selector (the checks on `timeout_ms`, `window_ms` and
`enable_sleep` passed) and the selector returns 0, the result is
`WATCHDOG_STATUS_INVALID_ARGUMENT`. In no case is a configuration whose timeout
the selector maps to 0 answered with `WATCHDOG_STATUS_OK`. -/
theorem calculate_prescaler_value_infeasible (timeout_ms : Nat) (c : watchdog_config_t)
    (dev : Device) :
    ((¬ ∃ scale, scale < 7 ∧ timeout_ms < 102 * (4 <<< scale)) →
      calculate_prescaler_value timeout_ms = 0) ∧
    (timeout_ms > max_timeout_ms → calculate_prescaler_value timeout_ms = 0) ∧
    (timeout_ms < 408 → calculate_prescaler_value timeout_ms = 0) ∧
    (0 < c.timeout_ms → c.timeout_ms ≤ max_timeout_ms → c.window_ms ≤ c.timeout_ms →
      c.enable_sleep = true → calculate_prescaler_value c.timeout_ms = 0 →
      hal_watchdog_init (some c) dev = (.WATCHDOG_STATUS_INVALID_ARGUMENT, dev)) ∧
    (calculate_prescaler_value c.timeout_ms = 0 →
      (hal_watchdog_init (some c) dev).1 ≠ .WATCHDOG_STATUS_OK) := by
  have hl := calculate_prescaler_value_ladder timeout_ms
  refine ⟨?_, ?_, ?_, ?_, ?_⟩
  · intro hno
    have h6 : ¬ timeout_ms < 102 * (4 <<< 6) := fun hlt => hno ⟨6, by decide, hlt⟩
    have e6 : 102 * 4 <<< 6 = 26112 := by decide
    rw [e6] at h6
    generalize calculate_prescaler_value timeout_ms = p at hl ⊢
    split_ifs at hl <;> omega
  · intro hgt
    rw [max_timeout_ms_eq] at hgt
    generalize calculate_prescaler_value timeout_ms = p at hl ⊢
    split_ifs at hl <;> omega
  · intro hlt
    rw [hl, if_pos hlt]
  · intro h0 hmax hw hs hp
    rw [max_timeout_ms_eq] at hmax
    have hst : (hal_watchdog_init (some c) dev).1 = .WATCHDOG_STATUS_INVALID_ARGUMENT := by
      rw [hal_watchdog_init_status, if_neg (by omega), if_neg (by omega), if_neg (by omega),
        if_neg (by omega), if_neg (by rw [hs]; decide), if_pos hp]
    exact Prod.ext hst (hal_watchdog_init_not_ok _ dev (by rw [hst]; decide))
  · intro hp hok
    have hb := hal_watchdog_init_ok_bounds c dev hok
    rcases calculate_prescaler_value_bands c.timeout_ms hb.1 hb.2.1 with
      ⟨hk, -⟩ | ⟨hk, -⟩ | ⟨hk, -⟩ | ⟨hk, -⟩ | ⟨hk, -⟩ | ⟨hk, -⟩ <;> omega

theorem calculate_prescaler_value_infeasible_witness :
    calculate_prescaler_value 26112 = 0 ∧
    calculate_prescaler_value 30000 = 0 ∧
    calculate_prescaler_value 407 = 0 ∧
    hal_watchdog_init (some ⟨407, 0, true⟩) Device.reset =
      (.WATCHDOG_STATUS_INVALID_ARGUMENT, Device.reset) :=
  ⟨(calculate_prescaler_value_infeasible 26112 ⟨407, 0, true⟩ Device.reset).1 (by decide),
    (calculate_prescaler_value_infeasible 30000 ⟨407, 0, true⟩ Device.reset).2.1 (by decide),
    (calculate_prescaler_value_infeasible 407 ⟨407, 0, true⟩ Device.reset).2.2.1 (by decide),
    (calculate_prescaler_value_infeasible 407 ⟨407, 0, true⟩ Device.reset).2.2.2.1
      (by decide) (by decide) (by decide) rfl (by decide)⟩

/-- C17: for the configuration `timeout_ms = 2000`, `window_ms = 0`,
`enable_sleep = true`, `hal_watchdog_init` returns `WATCHDOG_STATUS_OK` in every
register state, programs `PR = 3`, the smallest scale code whose divisor
satisfies `2000 < (4095 / 40) * divisor` (divisor 32), and `RLR = 2500`, which
is `(40 * 2000) / 32`. -/
theorem hal_watchdog_init_scenario_2000 (dev : Device) :
    (hal_watchdog_init (some ⟨2000, 0, true⟩) dev).1 = .WATCHDOG_STATUS_OK ∧
    (hal_watchdog_init (some ⟨2000, 0, true⟩) dev).2.IWDG.PR = 3 ∧
    (hal_watchdog_init (some ⟨2000, 0, true⟩) dev).2.IWDG.RLR = 2500 ∧
    calculate_prescaler_value 2000 = 3 ∧
    4 <<< 3 = 32 ∧ (40 * 2000) / 32 = 2500 ∧
    2000 < (4095 / 40) * (4 <<< 3) ∧
    (∀ scale, scale < 3 → ¬ (2000 < (4095 / 40) * (4 <<< scale))) := by
  have hok : (hal_watchdog_init (some ⟨2000, 0, true⟩) dev).1 = .WATCHDOG_STATUS_OK := by
    rw [hal_watchdog_init_status]
    decide
  have hs : calculate_prescaler_value 2000 = 3 := by decide
  have hst := hal_watchdog_init_ok_state ⟨2000, 0, true⟩ dev hok
  refine ⟨hok, ?_, ?_, hs, by decide, by decide, by decide, by decide⟩
  · rw [hst]
    exact hs
  · rw [hst]
    show 40 * 2000 / 4 <<< calculate_prescaler_value 2000 = 2500
    rw [hs]
    decide

/-- C18: for every present configuration, `hal_watchdog_init` returns
`WATCHDOG_STATUS_OK` if and only if `408 <= timeout_ms < 26112`,
`window_ms <= timeout_ms` and `enable_sleep = true`. The scale code programmed
on success is between 1 and 6, and a timeout below 408 or equal to
`max_timeout_ms` (26112) is answered with `WATCHDOG_STATUS_INVALID_ARGUMENT` or
`WATCHDOG_STATUS_NOT_SUPPORTED`, never with `WATCHDOG_STATUS_OK`. -/
theorem hal_watchdog_init_acceptance_set (c : watchdog_config_t) (dev : Device) :
    ((hal_watchdog_init (some c) dev).1 = .WATCHDOG_STATUS_OK ↔
      408 ≤ c.timeout_ms ∧ c.timeout_ms < 26112 ∧ c.window_ms ≤ c.timeout_ms ∧
        c.enable_sleep = true) ∧
    ((hal_watchdog_init (some c) dev).1 = .WATCHDOG_STATUS_OK →
      1 ≤ (hal_watchdog_init (some c) dev).2.IWDG.PR ∧
      (hal_watchdog_init (some c) dev).2.IWDG.PR ≤ 6) ∧
    ((c.timeout_ms < 408 ∨ c.timeout_ms = max_timeout_ms) →
      (hal_watchdog_init (some c) dev).1 = .WATCHDOG_STATUS_INVALID_ARGUMENT ∨
      (hal_watchdog_init (some c) dev).1 = .WATCHDOG_STATUS_NOT_SUPPORTED) := by
  have hiff : (hal_watchdog_init (some c) dev).1 = .WATCHDOG_STATUS_OK ↔
      408 ≤ c.timeout_ms ∧ c.timeout_ms < 26112 ∧ c.window_ms ≤ c.timeout_ms ∧
        c.enable_sleep = true := by
    constructor
    · exact hal_watchdog_init_ok_bounds c dev
    · rintro ⟨h1, h2, hw, hs⟩
      have hp : calculate_prescaler_value c.timeout_ms ≠ 0 := by
        rcases calculate_prescaler_value_bands c.timeout_ms h1 h2 with
          ⟨hk, -⟩ | ⟨hk, -⟩ | ⟨hk, -⟩ | ⟨hk, -⟩ | ⟨hk, -⟩ | ⟨hk, -⟩ <;> omega
      rw [hal_watchdog_init_status, if_neg (by omega), if_neg (by omega), if_neg (by omega),
        if_neg (by omega), if_neg (by rw [hs]; decide), if_neg hp]
  refine ⟨hiff, ?_, ?_⟩
  · intro hok
    obtain ⟨h1, h2, -, -⟩ := hal_watchdog_init_ok_bounds c dev hok
    rw [hal_watchdog_init_ok_state c dev hok]
    show 1 ≤ calculate_prescaler_value c.timeout_ms ∧
      calculate_prescaler_value c.timeout_ms ≤ 6
    rcases calculate_prescaler_value_bands c.timeout_ms h1 h2 with
      ⟨hk, -⟩ | ⟨hk, -⟩ | ⟨hk, -⟩ | ⟨hk, -⟩ | ⟨hk, -⟩ | ⟨hk, -⟩ <;> omega
  · intro ht
    rw [max_timeout_ms_eq] at ht
    have hno : (hal_watchdog_init (some c) dev).1 ≠ .WATCHDOG_STATUS_OK := by
      intro hok
      have hb := hiff.mp hok
      omega
    revert hno
    cases (hal_watchdog_init (some c) dev).1 <;> simp

/-- C19: for every configuration with timeout `t` for which `hal_watchdog_init`
returns `WATCHDOG_STATUS_OK`, `hal_watchdog_get_reload_value` on the resulting
registers returns `t - (t mod d)` with `d = 4 << PR`, the timeout rounded down
to a multiple of the selected divisor; hence `t - d < v <= t`, and `v = t`
exactly when `d` divides `t`. -/
theorem hal_watchdog_get_reload_value_exact (c : watchdog_config_t) (dev : Device)
    (h : (hal_watchdog_init (some c) dev).1 = .WATCHDOG_STATUS_OK) :
    hal_watchdog_get_reload_value (hal_watchdog_init (some c) dev).2 =
      c.timeout_ms - c.timeout_ms % (4 <<< (hal_watchdog_init (some c) dev).2.IWDG.PR) ∧
    (c.timeout_ms : Int) - ((4 <<< (hal_watchdog_init (some c) dev).2.IWDG.PR : Nat) : Int) <
      ((hal_watchdog_get_reload_value (hal_watchdog_init (some c) dev).2 : Nat) : Int) ∧
    hal_watchdog_get_reload_value (hal_watchdog_init (some c) dev).2 ≤ c.timeout_ms ∧
    (hal_watchdog_get_reload_value (hal_watchdog_init (some c) dev).2 = c.timeout_ms ↔
      4 <<< (hal_watchdog_init (some c) dev).2.IWDG.PR ∣ c.timeout_ms) := by
  have hv := hal_watchdog_init_ok_readback c dev h
  have hpr : (hal_watchdog_init (some c) dev).2.IWDG.PR =
      calculate_prescaler_value c.timeout_ms :=
    congrArg (fun d => d.IWDG.PR) (hal_watchdog_init_ok_state c dev h)
  rw [hpr, hv]
  have hd : 0 < 4 <<< calculate_prescaler_value c.timeout_ms := by
    rw [Nat.shiftLeft_eq]; positivity
  generalize 4 <<< calculate_prescaler_value c.timeout_ms = d at hd ⊢
  generalize c.timeout_ms = t
  have hdm := Nat.div_add_mod t d
  have hml := Nat.mod_lt t hd
  have hmul : t / d * d = d * (t / d) := Nat.mul_comm _ _
  rw [hmul]
  generalize d * (t / d) = q at hdm ⊢
  refine ⟨by omega, by omega, by omega, ?_⟩
  rw [Nat.dvd_iff_mod_eq_zero]
  omega

theorem hal_watchdog_get_reload_value_exact_witness :
    (hal_watchdog_init (some ⟨2000, 0, true⟩) Device.reset).1 = .WATCHDOG_STATUS_OK ∧
    (hal_watchdog_get_reload_value (hal_watchdog_init (some ⟨2000, 0, true⟩) Device.reset).2 =
      2000 - 2000 % (4 <<< (hal_watchdog_init (some ⟨2000, 0, true⟩) Device.reset).2.IWDG.PR) ∧
    (2000 : Int) -
        ((4 <<< (hal_watchdog_init (some ⟨2000, 0, true⟩) Device.reset).2.IWDG.PR : Nat) : Int) <
      ((hal_watchdog_get_reload_value
        (hal_watchdog_init (some ⟨2000, 0, true⟩) Device.reset).2 : Nat) : Int) ∧
    hal_watchdog_get_reload_value (hal_watchdog_init (some ⟨2000, 0, true⟩) Device.reset).2
      ≤ 2000 ∧
    (hal_watchdog_get_reload_value (hal_watchdog_init (some ⟨2000, 0, true⟩) Device.reset).2
        = 2000 ↔
      4 <<< (hal_watchdog_init (some ⟨2000, 0, true⟩) Device.reset).2.IWDG.PR ∣ 2000)) :=
  ⟨by decide, hal_watchdog_get_reload_value_exact ⟨2000, 0, true⟩ Device.reset (by decide)⟩

end Watchdog
